import Mathlib

/-!
Verification of the elementwise relational-operation dispatch layer of
tfjs-core (`src/ops/compare.ts`): the twelve entry points of `CompareOps`
(broadcasting and strict variants of the six relations), the type- and
shape-validation helpers they call, and the NumPy-style broadcast-shape
resolver.  Helpers that live outside the fragment under study
(`assertTypesMatch`, `assertShapesMatch`, `assertAndGetBroadcastShape`,
`convertToTensor`, the engine and the backend) are modelled from the
design document, as noted on each definition.
-/

/-- Element-type tag of a tensor (the dtypes relevant to this layer). -/
inductive DType where
  | float32
  | int32
  | bool
deriving DecidableEq, Repr

/-- A shape: ordered sequence of per-axis sizes, most-significant axis first. -/
abbrev Shape := List Nat

/-- A tensor value: a shape, an element-type tag, and flat row-major data.
Element values are modelled as integers; a boolean tensor stores 0/1. -/
structure Tensor where
  shape : Shape
  dtype : DType
  data : List Int
deriving DecidableEq, Repr

/-- The structured errors this layer can signal. -/
inductive CompareError where
  | TypeMismatchError (dtypeA dtypeB : DType)
  | ShapeMismatchError (msg : String)
  | InvalidOperandError (role opName : String)
deriving DecidableEq, Repr

/-- Modelled from the spec: `convertToTensor` of `tensor_util.ts` (not under
`src/`).  On an existing Tensor it is the identity; coercion of tensor-like
literals (which alone can raise `InvalidOperandError`) is outside this
layer's literal grammar, so operands are taken as tensors here.  The role
and operation names are carried for diagnostics only. -/
def convertToTensor (t : Tensor) (role opName : String) : Tensor :=
  t

/-- Modelled from the spec: `assertTypesMatch` of `tensor_util.ts` (not under
`src/`).  Fails with `TypeMismatchError` unless the two tensors report the
same element type. -/
def assertTypesMatch (a b : Tensor) : Except CompareError Unit :=
  if a.dtype = b.dtype then Except.ok ()
  else Except.error (CompareError.TypeMismatchError a.dtype b.dtype)

/-- Message body used by the strict-shape validator. -/
def shapesMsg (s1 s2 : Shape) : String :=
  "Shapes " ++ toString s1 ++ " and " ++ toString s2 ++ " must match"

/-- Modelled from the spec: `assertShapesMatch` of `util.ts` (not under
`src/`).  Fails with `ShapeMismatchError` unless the two shapes are
identical rank-for-rank, size-for-size; the message is prefixed with the
supplied context string. -/
def assertShapesMatch (s1 s2 : Shape) (context : String) : Except CompareError Unit :=
  if s1 = s2 then Except.ok ()
  else Except.error (CompareError.ShapeMismatchError (context ++ shapesMsg s1 s2))

/-- One aligned axis pair is compatible when the sizes are equal or either
is 1. -/
def axisCompatible (p : Nat × Nat) : Bool :=
  p.1 == p.2 || p.1 == 1 || p.2 == 1

/-- Trailing-axis broadcast resolution on reversed shapes (rightmost axis
first): consume aligned axes from the trailing end, taking the larger size
of each compatible pair; once one shape is exhausted the other's remaining
axes are aligned against conceptual size-1 padding. -/
def broadcastRev : List Nat → List Nat → Option (List Nat)
  | [], ys => some (ys.map fun y => max 1 y)
  | xs, [] => some (xs.map fun x => max x 1)
  | x :: xs, y :: ys =>
    if axisCompatible (x, y) then (broadcastRev xs ys).map fun r => max x y :: r
    else none

/-- The shape produced by trailing-axis resolution on reversed shapes when
every aligned pair is compatible: the pairwise max, with the unmatched
leading axes of the longer shape aligned against size-1 padding. -/
def maxExtRev : List Nat → List Nat → List Nat
  | [], ys => ys.map fun y => max 1 y
  | xs, [] => xs.map fun x => max x 1
  | x :: xs, y :: ys => max x y :: maxExtRev xs ys

/-- Error message of the broadcast resolver, reporting both full shapes. -/
def broadcastErrMsg (s1 s2 : Shape) : String :=
  "Operands could not be broadcast together with shapes " ++ toString s1 ++
    " and " ++ toString s2 ++ "."

/-- Modelled from the spec: `assertAndGetBroadcastShape` of
`broadcast_util.ts` (not under `src/`).  Right-aligned NumPy-style
broadcasting: for each aligned axis from the trailing end the two sizes
must be equal or one of them 1, and the resolved size is the larger of the
two; any incompatible axis fails the whole call with
`ShapeMismatchError`. -/
def assertAndGetBroadcastShape (s1 s2 : Shape) : Except CompareError Shape :=
  match broadcastRev s1.reverse s2.reverse with
  | some r => Except.ok r.reverse
  | none => Except.error (CompareError.ShapeMismatchError (broadcastErrMsg s1 s2))

/-- Left-pad a shape with size-1 axes up to rank `n` (spec §4.3 step 1). -/
def padLeft (n : Nat) (s : Shape) : Shape :=
  List.replicate (n - s.length) 1 ++ s

/-- The aligned axis pairs of two shapes after conceptually left-padding the
shorter with 1s to rank `max (rank s1) (rank s2)`. -/
def alignedAxes (s1 s2 : Shape) : List (Nat × Nat) :=
  (padLeft (max s1.length s2.length) s1).zip (padLeft (max s1.length s2.length) s2)

/-- NumPy-style trailing-axis compatibility, stated declaratively: every
aligned axis pair is equal or contains a 1. -/
def compatibleSpec (s1 s2 : Shape) : Bool :=
  (alignedAxes s1 s2).all axisCompatible

/-- The pairwise-max shape: on each aligned axis the larger of the two
sizes. -/
def pairwiseMaxShape (s1 s2 : Shape) : Shape :=
  (alignedAxes s1 s2).map fun p => max p.1 p.2

/-- Some aligned axis has both sizes greater than 1 and unequal (the
incompatibility condition as the claims state it). -/
def someAxisIncompatible (s1 s2 : Shape) : Bool :=
  (alignedAxes s1 s2).any fun p => decide (1 < p.1) && decide (1 < p.2) && (p.1 != p.2)

/-- A compute backend: one kernel per relational kind, each taking two
tensors of broadcastable shape and returning the boolean result tensor. -/
structure Backend where
  notEqual : Tensor → Tensor → Tensor
  less : Tensor → Tensor → Tensor
  equal : Tensor → Tensor → Tensor
  lessEqual : Tensor → Tensor → Tensor
  greater : Tensor → Tensor → Tensor
  greaterEqual : Tensor → Tensor → Tensor

/-- Modelled from the spec: the execution engine's `runKernel` (§6), with
the process-wide engine/backend singleton passed as an explicit handle
(spec §9).  It hands the active backend to the kernel function; the named
input tensors are recorded only for bookkeeping this layer treats as
opaque. -/
def Engine.runKernel (env : Backend) (kernelFn : Backend → Tensor)
    (inputs : Tensor × Tensor) : Tensor :=
  kernelFn env

/-- Enumerate the multi-indices of a shape in row-major order. -/
def allIndices : Shape → List (List Nat)
  | [] => [[]]
  | d :: ds => ((List.range d).map fun i => (allIndices ds).map fun idx => i :: idx).flatten

/-- Read a tensor at a (possibly higher-rank) broadcast multi-index: keep
the trailing `rank t` coordinates and wrap each by the corresponding axis
size, so size-1 axes repeat their single entry. -/
def tensorRead (t : Tensor) (idx : List Nat) : Int :=
  t.data.getD
    ((t.shape.zip (idx.drop (idx.length - t.shape.length))).foldl
      (fun acc p => acc * p.1 + p.2 % p.1) 0)
    0

/-- Modelled from the spec: a reference elementwise relational kernel (§6).
It materializes the resolved broadcast shape and compares the
broadcast-read operand values pointwise, producing a boolean tensor. -/
def elementKernel (f : Int → Int → Bool) (a b : Tensor) : Tensor :=
  let outShape := pairwiseMaxShape a.shape b.shape
  { shape := outShape
    dtype := DType.bool
    data := (allIndices outShape).map fun idx =>
      if f (tensorRead a idx) (tensorRead b idx) then 1 else 0 }

/-- Modelled from the spec: the reference backend, one elementwise kernel
per relational kind. -/
def refBackend : Backend where
  notEqual := elementKernel fun x y => x != y
  less := elementKernel fun x y => decide (x < y)
  equal := elementKernel fun x y => x == y
  lessEqual := elementKernel fun x y => decide (x ≤ y)
  greater := elementKernel fun x y => decide (y < x)
  greaterEqual := elementKernel fun x y => decide (y ≤ x)

/-- `CompareOps.notEqual`: coerce both operands, assert type consistency,
resolve the broadcast shape for validation, then run the `notEqual` kernel
through the engine. -/
def CompareOps.notEqual (env : Backend) (a b : Tensor) : Except CompareError Tensor :=
  let a' := convertToTensor a "a" "notEqual"
  let b' := convertToTensor b "b" "notEqual"
  match assertTypesMatch a' b' with
  | Except.error e => Except.error e
  | Except.ok _ =>
    match assertAndGetBroadcastShape a'.shape b'.shape with
    | Except.error e => Except.error e
    | Except.ok _ =>
      Except.ok (Engine.runKernel env (fun backend => backend.notEqual a' b') (a', b'))

/-- `CompareOps.notEqualStrict`: coerce both operands, assert the shapes are
exactly equal, then delegate to the broadcasting `notEqual`. -/
def CompareOps.notEqualStrict (env : Backend) (a b : Tensor) : Except CompareError Tensor :=
  let a' := convertToTensor a "a" "notEqualStrict"
  let b' := convertToTensor b "b" "notEqualStrict"
  match assertShapesMatch a'.shape b'.shape "Error in notEqualStrict: " with
  | Except.error e => Except.error e
  | Except.ok _ => CompareOps.notEqual env a' b'

/-- `CompareOps.less`: coerce, assert type consistency, validate the
broadcast shape, run the `less` kernel. -/
def CompareOps.less (env : Backend) (a b : Tensor) : Except CompareError Tensor :=
  let a' := convertToTensor a "a" "less"
  let b' := convertToTensor b "b" "less"
  match assertTypesMatch a' b' with
  | Except.error e => Except.error e
  | Except.ok _ =>
    match assertAndGetBroadcastShape a'.shape b'.shape with
    | Except.error e => Except.error e
    | Except.ok _ =>
      Except.ok (Engine.runKernel env (fun backend => backend.less a' b') (a', b'))

/-- `CompareOps.lessStrict`: strict-shape check, then delegate to `less`. -/
def CompareOps.lessStrict (env : Backend) (a b : Tensor) : Except CompareError Tensor :=
  let a' := convertToTensor a "a" "lessStrict"
  let b' := convertToTensor b "b" "lessStrict"
  match assertShapesMatch a'.shape b'.shape "Error in lessStrict: " with
  | Except.error e => Except.error e
  | Except.ok _ => CompareOps.less env a' b'

/-- `CompareOps.equal`: coerce, assert type consistency, validate the
broadcast shape, run the `equal` kernel. -/
def CompareOps.equal (env : Backend) (a b : Tensor) : Except CompareError Tensor :=
  let a' := convertToTensor a "a" "equal"
  let b' := convertToTensor b "b" "equal"
  match assertTypesMatch a' b' with
  | Except.error e => Except.error e
  | Except.ok _ =>
    match assertAndGetBroadcastShape a'.shape b'.shape with
    | Except.error e => Except.error e
    | Except.ok _ =>
      Except.ok (Engine.runKernel env (fun backend => backend.equal a' b') (a', b'))

/-- `CompareOps.equalStrict`: strict-shape check, then delegate to
`equal`. -/
def CompareOps.equalStrict (env : Backend) (a b : Tensor) : Except CompareError Tensor :=
  let a' := convertToTensor a "a" "equalStrict"
  let b' := convertToTensor b "b" "equalStrict"
  match assertShapesMatch a'.shape b'.shape "Error in equalStrict: " with
  | Except.error e => Except.error e
  | Except.ok _ => CompareOps.equal env a' b'

/-- `CompareOps.lessEqual`: coerce, assert type consistency, validate the
broadcast shape, run the `lessEqual` kernel. -/
def CompareOps.lessEqual (env : Backend) (a b : Tensor) : Except CompareError Tensor :=
  let a' := convertToTensor a "a" "lessEqual"
  let b' := convertToTensor b "b" "lessEqual"
  match assertTypesMatch a' b' with
  | Except.error e => Except.error e
  | Except.ok _ =>
    match assertAndGetBroadcastShape a'.shape b'.shape with
    | Except.error e => Except.error e
    | Except.ok _ =>
      Except.ok (Engine.runKernel env (fun backend => backend.lessEqual a' b') (a', b'))

/-- `CompareOps.lessEqualStrict`: strict-shape check, then delegate to
`lessEqual`. -/
def CompareOps.lessEqualStrict (env : Backend) (a b : Tensor) : Except CompareError Tensor :=
  let a' := convertToTensor a "a" "lessEqualStrict"
  let b' := convertToTensor b "b" "lessEqualStrict"
  match assertShapesMatch a'.shape b'.shape "Error in lessEqualStrict: " with
  | Except.error e => Except.error e
  | Except.ok _ => CompareOps.lessEqual env a' b'

/-- `CompareOps.greater`: coerce, assert type consistency, validate the
broadcast shape, run the `greater` kernel. -/
def CompareOps.greater (env : Backend) (a b : Tensor) : Except CompareError Tensor :=
  let a' := convertToTensor a "a" "greater"
  let b' := convertToTensor b "b" "greater"
  match assertTypesMatch a' b' with
  | Except.error e => Except.error e
  | Except.ok _ =>
    match assertAndGetBroadcastShape a'.shape b'.shape with
    | Except.error e => Except.error e
    | Except.ok _ =>
      Except.ok (Engine.runKernel env (fun backend => backend.greater a' b') (a', b'))

/-- `CompareOps.greaterStrict`: strict-shape check, then delegate to
`greater`. -/
def CompareOps.greaterStrict (env : Backend) (a b : Tensor) : Except CompareError Tensor :=
  let a' := convertToTensor a "a" "greaterStrict"
  let b' := convertToTensor b "b" "greaterStrict"
  match assertShapesMatch a'.shape b'.shape "Error in greaterStrict: " with
  | Except.error e => Except.error e
  | Except.ok _ => CompareOps.greater env a' b'

/-- `CompareOps.greaterEqual`: coerce, assert type consistency, validate the
broadcast shape, run the `greaterEqual` kernel. -/
def CompareOps.greaterEqual (env : Backend) (a b : Tensor) : Except CompareError Tensor :=
  let a' := convertToTensor a "a" "greaterEqual"
  let b' := convertToTensor b "b" "greaterEqual"
  match assertTypesMatch a' b' with
  | Except.error e => Except.error e
  | Except.ok _ =>
    match assertAndGetBroadcastShape a'.shape b'.shape with
    | Except.error e => Except.error e
    | Except.ok _ =>
      Except.ok (Engine.runKernel env (fun backend => backend.greaterEqual a' b') (a', b'))

/-- `CompareOps.greaterEqualStrict`: strict-shape check, then delegate to
`greaterEqual`. -/
def CompareOps.greaterEqualStrict (env : Backend) (a b : Tensor) : Except CompareError Tensor :=
  let a' := convertToTensor a "a" "greaterEqualStrict"
  let b' := convertToTensor b "b" "greaterEqualStrict"
  match assertShapesMatch a'.shape b'.shape "Error in greaterEqualStrict: " with
  | Except.error e => Except.error e
  | Except.ok _ => CompareOps.greaterEqual env a' b'

/-! ### Lemmas about the broadcast-shape resolver -/

theorem broadcastRev_eq_ite (r1 : List Nat) : ∀ r2 : List Nat,
    broadcastRev r1 r2 =
      if (r1.zip r2).all axisCompatible then some (maxExtRev r1 r2) else none := by
  induction r1 with
  | nil => intro r2; simp [broadcastRev, maxExtRev]
  | cons x xs ih =>
    intro r2
    cases r2 with
    | nil => simp [broadcastRev, maxExtRev]
    | cons y ys =>
      simp only [broadcastRev, maxExtRev, List.zip_cons_cons, List.all_cons, ih ys]
      by_cases h : axisCompatible (x, y)
      · by_cases h2 : (xs.zip ys).all axisCompatible <;> simp [h, h2]
      · simp [h]

theorem padLeft_length (n : Nat) (s : Shape) (h : s.length ≤ n) :
    (padLeft n s).length = n := by
  simp [padLeft, Nat.sub_add_cancel h]

theorem padLeft_concat (n : Nat) (s : Shape) (x : Nat) :
    padLeft (n + 1) (s ++ [x]) = padLeft n s ++ [x] := by
  simp [padLeft, Nat.succ_sub_succ]

theorem alignedAxes_concat (s1 s2 : Shape) (x y : Nat) :
    alignedAxes (s1 ++ [x]) (s2 ++ [y]) = alignedAxes s1 s2 ++ [(x, y)] := by
  unfold alignedAxes
  have hm : max (s1 ++ [x]).length (s2 ++ [y]).length =
      max s1.length s2.length + 1 := by
    simp [Nat.succ_max_succ]
  rw [hm, padLeft_concat, padLeft_concat,
    List.zip_append (by
      rw [padLeft_length _ _ (Nat.le_max_left _ _),
        padLeft_length _ _ (Nat.le_max_right _ _)])]
  rfl

theorem alignedAxes_nil_right (s : Shape) :
    alignedAxes s [] = s.zip (List.replicate s.length 1) := by
  simp [alignedAxes, padLeft]

theorem alignedAxes_nil_left (s : Shape) :
    alignedAxes [] s = (List.replicate s.length 1).zip s := by
  simp [alignedAxes, padLeft]

theorem zip_ones_right_all (l : List Nat) :
    (l.zip (List.replicate l.length 1)).all axisCompatible = true := by
  induction l with
  | nil => rfl
  | cons x xs ih => simp [List.replicate_succ, axisCompatible, ih]

theorem zip_ones_left_all (l : List Nat) :
    ((List.replicate l.length 1).zip l).all axisCompatible = true := by
  induction l with
  | nil => rfl
  | cons x xs ih => simp [List.replicate_succ, axisCompatible, ih]

theorem zip_ones_right_map (l : List Nat) :
    (l.zip (List.replicate l.length 1)).map (fun p => max p.1 p.2) =
      l.map fun x => max x 1 := by
  induction l with
  | nil => rfl
  | cons x xs ih => simp [List.replicate_succ, ih]

theorem zip_ones_left_map (l : List Nat) :
    ((List.replicate l.length 1).zip l).map (fun p => max p.1 p.2) =
      l.map fun y => max 1 y := by
  induction l with
  | nil => rfl
  | cons x xs ih => simp [List.replicate_succ, ih]

theorem compatibleSpec_nil_right (s : Shape) : compatibleSpec s [] = true := by
  rw [compatibleSpec, alignedAxes_nil_right, zip_ones_right_all]

theorem compatibleSpec_nil_left (s : Shape) : compatibleSpec [] s = true := by
  rw [compatibleSpec, alignedAxes_nil_left, zip_ones_left_all]

theorem pairwiseMaxShape_nil_right (s : Shape) :
    pairwiseMaxShape s [] = s.map fun x => max x 1 := by
  rw [pairwiseMaxShape, alignedAxes_nil_right, zip_ones_right_map]

theorem pairwiseMaxShape_nil_left (s : Shape) :
    pairwiseMaxShape [] s = s.map fun y => max 1 y := by
  rw [pairwiseMaxShape, alignedAxes_nil_left, zip_ones_left_map]

theorem compatibleSpec_concat (s1 s2 : Shape) (x y : Nat) :
    compatibleSpec (s1 ++ [x]) (s2 ++ [y]) =
      (compatibleSpec s1 s2 && axisCompatible (x, y)) := by
  simp [compatibleSpec, alignedAxes_concat]

theorem pairwiseMaxShape_concat (s1 s2 : Shape) (x y : Nat) :
    pairwiseMaxShape (s1 ++ [x]) (s2 ++ [y]) =
      pairwiseMaxShape s1 s2 ++ [max x y] := by
  simp [pairwiseMaxShape, alignedAxes_concat]

theorem compatibleSpec_rev (r1 : List Nat) : ∀ r2 : List Nat,
    compatibleSpec r1.reverse r2.reverse = (r1.zip r2).all axisCompatible := by
  induction r1 with
  | nil => intro r2; simp [compatibleSpec_nil_left]
  | cons x xs ih =>
    intro r2
    cases r2 with
    | nil => simp [compatibleSpec_nil_right]
    | cons y ys =>
      simp only [List.reverse_cons, compatibleSpec_concat, ih ys,
        List.zip_cons_cons, List.all_cons]
      rw [Bool.and_comm]

theorem pairwiseMaxShape_rev (r1 : List Nat) : ∀ r2 : List Nat,
    pairwiseMaxShape r1.reverse r2.reverse = (maxExtRev r1 r2).reverse := by
  induction r1 with
  | nil => intro r2; simp [pairwiseMaxShape_nil_left, maxExtRev]
  | cons x xs ih =>
    intro r2
    cases r2 with
    | nil => simp [pairwiseMaxShape_nil_right, maxExtRev]
    | cons y ys =>
      simp only [List.reverse_cons, pairwiseMaxShape_concat, ih ys, maxExtRev]

theorem resolve_eq (s1 s2 : Shape) :
    assertAndGetBroadcastShape s1 s2 =
      if compatibleSpec s1 s2 then Except.ok (pairwiseMaxShape s1 s2)
      else Except.error (CompareError.ShapeMismatchError (broadcastErrMsg s1 s2)) := by
  have hc := compatibleSpec_rev s1.reverse s2.reverse
  have hm := pairwiseMaxShape_rev s1.reverse s2.reverse
  rw [List.reverse_reverse, List.reverse_reverse] at hc hm
  rw [assertAndGetBroadcastShape, broadcastRev_eq_ite, ← hc]
  by_cases h : compatibleSpec s1 s2
  · simp [h, ← hm]
  · simp [h]

theorem compatibleSpec_refl (s : Shape) : compatibleSpec s s = true := by
  have h := compatibleSpec_rev s.reverse s.reverse
  rw [List.reverse_reverse] at h
  rw [h]
  induction s.reverse with
  | nil => rfl
  | cons x xs ih => simp [axisCompatible, ih]

theorem pairwiseMaxShape_length (s1 s2 : Shape) :
    (pairwiseMaxShape s1 s2).length = max s1.length s2.length := by
  simp [pairwiseMaxShape, alignedAxes,
    padLeft_length _ _ (Nat.le_max_left s1.length s2.length),
    padLeft_length _ _ (Nat.le_max_right s1.length s2.length)]

/-! ### Characterization of the twelve entry points -/

theorem notEqual_eq (env : Backend) (a b : Tensor) :
    CompareOps.notEqual env a b =
      if a.dtype = b.dtype then
        if compatibleSpec a.shape b.shape then
          Except.ok (Engine.runKernel env (fun backend => backend.notEqual a b) (a, b))
        else Except.error (CompareError.ShapeMismatchError (broadcastErrMsg a.shape b.shape))
      else Except.error (CompareError.TypeMismatchError a.dtype b.dtype) := by
  by_cases hd : a.dtype = b.dtype <;> by_cases hc : compatibleSpec a.shape b.shape <;>
    simp [CompareOps.notEqual, convertToTensor, assertTypesMatch, resolve_eq, hd, hc]

theorem less_eq (env : Backend) (a b : Tensor) :
    CompareOps.less env a b =
      if a.dtype = b.dtype then
        if compatibleSpec a.shape b.shape then
          Except.ok (Engine.runKernel env (fun backend => backend.less a b) (a, b))
        else Except.error (CompareError.ShapeMismatchError (broadcastErrMsg a.shape b.shape))
      else Except.error (CompareError.TypeMismatchError a.dtype b.dtype) := by
  by_cases hd : a.dtype = b.dtype <;> by_cases hc : compatibleSpec a.shape b.shape <;>
    simp [CompareOps.less, convertToTensor, assertTypesMatch, resolve_eq, hd, hc]

theorem equal_eq (env : Backend) (a b : Tensor) :
    CompareOps.equal env a b =
      if a.dtype = b.dtype then
        if compatibleSpec a.shape b.shape then
          Except.ok (Engine.runKernel env (fun backend => backend.equal a b) (a, b))
        else Except.error (CompareError.ShapeMismatchError (broadcastErrMsg a.shape b.shape))
      else Except.error (CompareError.TypeMismatchError a.dtype b.dtype) := by
  by_cases hd : a.dtype = b.dtype <;> by_cases hc : compatibleSpec a.shape b.shape <;>
    simp [CompareOps.equal, convertToTensor, assertTypesMatch, resolve_eq, hd, hc]

theorem lessEqual_eq (env : Backend) (a b : Tensor) :
    CompareOps.lessEqual env a b =
      if a.dtype = b.dtype then
        if compatibleSpec a.shape b.shape then
          Except.ok (Engine.runKernel env (fun backend => backend.lessEqual a b) (a, b))
        else Except.error (CompareError.ShapeMismatchError (broadcastErrMsg a.shape b.shape))
      else Except.error (CompareError.TypeMismatchError a.dtype b.dtype) := by
  by_cases hd : a.dtype = b.dtype <;> by_cases hc : compatibleSpec a.shape b.shape <;>
    simp [CompareOps.lessEqual, convertToTensor, assertTypesMatch, resolve_eq, hd, hc]

theorem greater_eq (env : Backend) (a b : Tensor) :
    CompareOps.greater env a b =
      if a.dtype = b.dtype then
        if compatibleSpec a.shape b.shape then
          Except.ok (Engine.runKernel env (fun backend => backend.greater a b) (a, b))
        else Except.error (CompareError.ShapeMismatchError (broadcastErrMsg a.shape b.shape))
      else Except.error (CompareError.TypeMismatchError a.dtype b.dtype) := by
  by_cases hd : a.dtype = b.dtype <;> by_cases hc : compatibleSpec a.shape b.shape <;>
    simp [CompareOps.greater, convertToTensor, assertTypesMatch, resolve_eq, hd, hc]

theorem greaterEqual_eq (env : Backend) (a b : Tensor) :
    CompareOps.greaterEqual env a b =
      if a.dtype = b.dtype then
        if compatibleSpec a.shape b.shape then
          Except.ok (Engine.runKernel env (fun backend => backend.greaterEqual a b) (a, b))
        else Except.error (CompareError.ShapeMismatchError (broadcastErrMsg a.shape b.shape))
      else Except.error (CompareError.TypeMismatchError a.dtype b.dtype) := by
  by_cases hd : a.dtype = b.dtype <;> by_cases hc : compatibleSpec a.shape b.shape <;>
    simp [CompareOps.greaterEqual, convertToTensor, assertTypesMatch, resolve_eq, hd, hc]

theorem notEqualStrict_eq (env : Backend) (a b : Tensor) :
    CompareOps.notEqualStrict env a b =
      if a.shape = b.shape then CompareOps.notEqual env a b
      else Except.error (CompareError.ShapeMismatchError
        ("Error in notEqualStrict: " ++ shapesMsg a.shape b.shape)) := by
  by_cases hs : a.shape = b.shape <;>
    simp [CompareOps.notEqualStrict, convertToTensor, assertShapesMatch, hs]

theorem lessStrict_eq (env : Backend) (a b : Tensor) :
    CompareOps.lessStrict env a b =
      if a.shape = b.shape then CompareOps.less env a b
      else Except.error (CompareError.ShapeMismatchError
        ("Error in lessStrict: " ++ shapesMsg a.shape b.shape)) := by
  by_cases hs : a.shape = b.shape <;>
    simp [CompareOps.lessStrict, convertToTensor, assertShapesMatch, hs]

theorem equalStrict_eq (env : Backend) (a b : Tensor) :
    CompareOps.equalStrict env a b =
      if a.shape = b.shape then CompareOps.equal env a b
      else Except.error (CompareError.ShapeMismatchError
        ("Error in equalStrict: " ++ shapesMsg a.shape b.shape)) := by
  by_cases hs : a.shape = b.shape <;>
    simp [CompareOps.equalStrict, convertToTensor, assertShapesMatch, hs]

theorem lessEqualStrict_eq (env : Backend) (a b : Tensor) :
    CompareOps.lessEqualStrict env a b =
      if a.shape = b.shape then CompareOps.lessEqual env a b
      else Except.error (CompareError.ShapeMismatchError
        ("Error in lessEqualStrict: " ++ shapesMsg a.shape b.shape)) := by
  by_cases hs : a.shape = b.shape <;>
    simp [CompareOps.lessEqualStrict, convertToTensor, assertShapesMatch, hs]

theorem greaterStrict_eq (env : Backend) (a b : Tensor) :
    CompareOps.greaterStrict env a b =
      if a.shape = b.shape then CompareOps.greater env a b
      else Except.error (CompareError.ShapeMismatchError
        ("Error in greaterStrict: " ++ shapesMsg a.shape b.shape)) := by
  by_cases hs : a.shape = b.shape <;>
    simp [CompareOps.greaterStrict, convertToTensor, assertShapesMatch, hs]

theorem greaterEqualStrict_eq (env : Backend) (a b : Tensor) :
    CompareOps.greaterEqualStrict env a b =
      if a.shape = b.shape then CompareOps.greaterEqual env a b
      else Except.error (CompareError.ShapeMismatchError
        ("Error in greaterEqualStrict: " ++ shapesMsg a.shape b.shape)) := by
  by_cases hs : a.shape = b.shape <;>
    simp [CompareOps.greaterEqualStrict, convertToTensor, assertShapesMatch, hs]

/-! ### Claim theorems -/

/-- C1 (amended): each of the six broadcasting entry points checks type
consistency before any shape work, so mismatched types yield
`TypeMismatchError` regardless of the shapes; the six strict entry points,
however, run their strict shape check before delegating, so a call with
both mismatched types and mismatched shapes yields `ShapeMismatchError`
there, not `TypeMismatchError`. -/
theorem typeThenShape_order_amended (env : Backend) (a b : Tensor)
    (hd : a.dtype ≠ b.dtype) :
    (CompareOps.notEqual env a b =
        Except.error (CompareError.TypeMismatchError a.dtype b.dtype) ∧
      CompareOps.less env a b =
        Except.error (CompareError.TypeMismatchError a.dtype b.dtype) ∧
      CompareOps.equal env a b =
        Except.error (CompareError.TypeMismatchError a.dtype b.dtype) ∧
      CompareOps.lessEqual env a b =
        Except.error (CompareError.TypeMismatchError a.dtype b.dtype) ∧
      CompareOps.greater env a b =
        Except.error (CompareError.TypeMismatchError a.dtype b.dtype) ∧
      CompareOps.greaterEqual env a b =
        Except.error (CompareError.TypeMismatchError a.dtype b.dtype)) ∧
    (a.shape ≠ b.shape →
      CompareOps.notEqualStrict env a b =
        Except.error (CompareError.ShapeMismatchError
          ("Error in notEqualStrict: " ++ shapesMsg a.shape b.shape)) ∧
      CompareOps.lessStrict env a b =
        Except.error (CompareError.ShapeMismatchError
          ("Error in lessStrict: " ++ shapesMsg a.shape b.shape)) ∧
      CompareOps.equalStrict env a b =
        Except.error (CompareError.ShapeMismatchError
          ("Error in equalStrict: " ++ shapesMsg a.shape b.shape)) ∧
      CompareOps.lessEqualStrict env a b =
        Except.error (CompareError.ShapeMismatchError
          ("Error in lessEqualStrict: " ++ shapesMsg a.shape b.shape)) ∧
      CompareOps.greaterStrict env a b =
        Except.error (CompareError.ShapeMismatchError
          ("Error in greaterStrict: " ++ shapesMsg a.shape b.shape)) ∧
      CompareOps.greaterEqualStrict env a b =
        Except.error (CompareError.ShapeMismatchError
          ("Error in greaterEqualStrict: " ++ shapesMsg a.shape b.shape))) := by
  constructor
  · refine ⟨?_, ?_, ?_, ?_, ?_, ?_⟩ <;>
      simp [notEqual_eq, less_eq, equal_eq, lessEqual_eq, greater_eq,
        greaterEqual_eq, hd]
  · intro hs
    refine ⟨?_, ?_, ?_, ?_, ?_, ?_⟩ <;>
      simp [notEqualStrict_eq, lessStrict_eq, equalStrict_eq, lessEqualStrict_eq,
        greaterStrict_eq, greaterEqualStrict_eq, hs]

/-- C1 witness: concrete instances of both halves of the amended claim —
the broadcasting half on operands of equal shapes (mismatched dtypes alone
suffice) and the strict half on operands with both mismatches. -/
theorem typeThenShape_order_amended_witness :
    CompareOps.notEqual refBackend ⟨[2], DType.int32, [1, 2]⟩ ⟨[2], DType.bool, [1, 0]⟩ =
      Except.error (CompareError.TypeMismatchError DType.int32 DType.bool) ∧
    CompareOps.notEqual refBackend ⟨[2], DType.int32, [1, 2]⟩ ⟨[3], DType.bool, [1, 0, 1]⟩ =
      Except.error (CompareError.TypeMismatchError DType.int32 DType.bool) ∧
    CompareOps.notEqualStrict refBackend ⟨[2], DType.int32, [1, 2]⟩ ⟨[3], DType.bool, [1, 0, 1]⟩ =
      Except.error (CompareError.ShapeMismatchError
        ("Error in notEqualStrict: " ++ shapesMsg [2] [3])) :=
  ⟨(typeThenShape_order_amended refBackend ⟨[2], DType.int32, [1, 2]⟩
      ⟨[2], DType.bool, [1, 0]⟩ (by decide)).1.1,
    (typeThenShape_order_amended refBackend ⟨[2], DType.int32, [1, 2]⟩
      ⟨[3], DType.bool, [1, 0, 1]⟩ (by decide)).1.1,
    ((typeThenShape_order_amended refBackend ⟨[2], DType.int32, [1, 2]⟩
      ⟨[3], DType.bool, [1, 0, 1]⟩ (by decide)).2 (by decide)).1⟩

/-- C1 counterexample: a strict entry point called with operands whose
element types differ and whose shapes also mismatch raises
`ShapeMismatchError`, not `TypeMismatchError`: the strict shape check runs
before the (delegated) type check. -/
theorem typeThenShape_order_cex :
    DType.int32 ≠ DType.bool ∧ ([2] : Shape) ≠ [3] ∧
    CompareOps.notEqualStrict refBackend ⟨[2], DType.int32, [1, 2]⟩ ⟨[3], DType.bool, [1, 0, 1]⟩ =
      Except.error (CompareError.ShapeMismatchError
        ("Error in notEqualStrict: " ++ shapesMsg [2] [3])) ∧
    CompareOps.notEqualStrict refBackend ⟨[2], DType.int32, [1, 2]⟩ ⟨[3], DType.bool, [1, 0, 1]⟩ ≠
      Except.error (CompareError.TypeMismatchError DType.int32 DType.bool) := by
  refine ⟨by decide, by decide, rfl, ?_⟩
  intro h
  rw [show CompareOps.notEqualStrict refBackend ⟨[2], DType.int32, [1, 2]⟩
      ⟨[3], DType.bool, [1, 0, 1]⟩ =
      Except.error (CompareError.ShapeMismatchError
        ("Error in notEqualStrict: " ++ shapesMsg [2] [3])) from rfl] at h
  simp at h

/-- C2: for every trailing-axis-compatible pair of shapes the resolver
returns the pairwise-max shape of rank `max (rank s1) (rank s2)`, and for
every pair with some aligned axis whose sizes are both greater than 1 and
unequal it fails with `ShapeMismatchError`. -/
theorem broadcast_resolver_correct (s1 s2 : Shape) :
    (compatibleSpec s1 s2 = true →
      assertAndGetBroadcastShape s1 s2 = Except.ok (pairwiseMaxShape s1 s2) ∧
      (pairwiseMaxShape s1 s2).length = max s1.length s2.length) ∧
    (someAxisIncompatible s1 s2 = true →
      assertAndGetBroadcastShape s1 s2 =
        Except.error (CompareError.ShapeMismatchError (broadcastErrMsg s1 s2))) := by
  constructor
  · intro h
    exact ⟨by rw [resolve_eq, if_pos h], pairwiseMaxShape_length s1 s2⟩
  · intro h
    have hc : compatibleSpec s1 s2 = false := by
      rw [someAxisIncompatible, List.any_eq_true] at h
      obtain ⟨p, hp, hcond⟩ := h
      rw [compatibleSpec, Bool.eq_false_iff]
      intro hall
      rw [List.all_eq_true] at hall
      have hap := hall p hp
      simp [axisCompatible] at hap hcond
      omega
    rw [resolve_eq, if_neg (by simp [hc])]

/-- C2 witness: the resolver on concrete compatible and incompatible
shapes. -/
theorem broadcast_resolver_correct_witness :
    assertAndGetBroadcastShape [2, 1] [1] = Except.ok [2, 1] ∧
    assertAndGetBroadcastShape [2] [3] =
      Except.error (CompareError.ShapeMismatchError (broadcastErrMsg [2] [3])) := by
  constructor
  · rw [((broadcast_resolver_correct [2, 1] [1]).1 (by decide)).1]
    rfl
  · exact (broadcast_resolver_correct [2] [3]).2 (by decide)

/-- C3: for each of the six relations, when the two operands have identical
shape and identical element type the broadcasting variant and the strict
variant return equal results. -/
theorem strict_agrees_with_broadcast (env : Backend) (a b : Tensor)
    (hs : a.shape = b.shape) (hd : a.dtype = b.dtype) :
    CompareOps.notEqual env a b = CompareOps.notEqualStrict env a b ∧
    CompareOps.less env a b = CompareOps.lessStrict env a b ∧
    CompareOps.equal env a b = CompareOps.equalStrict env a b ∧
    CompareOps.lessEqual env a b = CompareOps.lessEqualStrict env a b ∧
    CompareOps.greater env a b = CompareOps.greaterStrict env a b ∧
    CompareOps.greaterEqual env a b = CompareOps.greaterEqualStrict env a b := by
  refine ⟨?_, ?_, ?_, ?_, ?_, ?_⟩ <;>
    simp [notEqualStrict_eq, lessStrict_eq, equalStrict_eq, lessEqualStrict_eq,
      greaterStrict_eq, greaterEqualStrict_eq, hs]

/-- C3 witness: broadcasting and strict `notEqual` agree on concrete
equal-shape, equal-dtype operands. -/
theorem strict_agrees_with_broadcast_witness :
    CompareOps.notEqual refBackend ⟨[2], DType.int32, [1, 2]⟩ ⟨[2], DType.int32, [2, 2]⟩ =
      CompareOps.notEqualStrict refBackend ⟨[2], DType.int32, [1, 2]⟩ ⟨[2], DType.int32, [2, 2]⟩ :=
  (strict_agrees_with_broadcast refBackend ⟨[2], DType.int32, [1, 2]⟩
    ⟨[2], DType.int32, [2, 2]⟩ rfl rfl).1

/-- C4: every strict entry point called with operands of different shapes
fails with `ShapeMismatchError` whose message is prefixed with the
relation-specific context string, and the result is the same for every
backend, so no backend kernel is ever invoked. -/
theorem strict_shape_mismatch_rejects (env : Backend) (a b : Tensor)
    (hs : a.shape ≠ b.shape) :
    CompareOps.notEqualStrict env a b =
      Except.error (CompareError.ShapeMismatchError
        ("Error in notEqualStrict: " ++ shapesMsg a.shape b.shape)) ∧
    CompareOps.lessStrict env a b =
      Except.error (CompareError.ShapeMismatchError
        ("Error in lessStrict: " ++ shapesMsg a.shape b.shape)) ∧
    CompareOps.equalStrict env a b =
      Except.error (CompareError.ShapeMismatchError
        ("Error in equalStrict: " ++ shapesMsg a.shape b.shape)) ∧
    CompareOps.lessEqualStrict env a b =
      Except.error (CompareError.ShapeMismatchError
        ("Error in lessEqualStrict: " ++ shapesMsg a.shape b.shape)) ∧
    CompareOps.greaterStrict env a b =
      Except.error (CompareError.ShapeMismatchError
        ("Error in greaterStrict: " ++ shapesMsg a.shape b.shape)) ∧
    CompareOps.greaterEqualStrict env a b =
      Except.error (CompareError.ShapeMismatchError
        ("Error in greaterEqualStrict: " ++ shapesMsg a.shape b.shape)) := by
  refine ⟨?_, ?_, ?_, ?_, ?_, ?_⟩ <;>
    simp [notEqualStrict_eq, lessStrict_eq, equalStrict_eq, lessEqualStrict_eq,
      greaterStrict_eq, greaterEqualStrict_eq, hs]

/-- C4 witness: the spec's own example, `greaterStrict` on shapes `[2]` and
`[3]`, fails with the context-prefixed `ShapeMismatchError`. -/
theorem strict_shape_mismatch_rejects_witness :
    CompareOps.greaterStrict refBackend ⟨[2], DType.int32, [1, 2]⟩ ⟨[3], DType.int32, [1, 2, 3]⟩ =
      Except.error (CompareError.ShapeMismatchError
        ("Error in greaterStrict: " ++ shapesMsg [2] [3])) :=
  (strict_shape_mismatch_rejects refBackend ⟨[2], DType.int32, [1, 2]⟩
    ⟨[3], DType.int32, [1, 2, 3]⟩ (by decide)).2.2.2.2.1

/-- C5: every broadcasting entry point called with same-dtype operands whose
shapes are not broadcast-compatible fails with `ShapeMismatchError`, and
the result is the same for every backend: validation rejects the call
before the engine's `runKernel` can reach any backend kernel. -/
theorem broadcast_incompatible_rejects (env : Backend) (a b : Tensor)
    (hd : a.dtype = b.dtype) (hc : compatibleSpec a.shape b.shape = false) :
    CompareOps.notEqual env a b =
      Except.error (CompareError.ShapeMismatchError (broadcastErrMsg a.shape b.shape)) ∧
    CompareOps.less env a b =
      Except.error (CompareError.ShapeMismatchError (broadcastErrMsg a.shape b.shape)) ∧
    CompareOps.equal env a b =
      Except.error (CompareError.ShapeMismatchError (broadcastErrMsg a.shape b.shape)) ∧
    CompareOps.lessEqual env a b =
      Except.error (CompareError.ShapeMismatchError (broadcastErrMsg a.shape b.shape)) ∧
    CompareOps.greater env a b =
      Except.error (CompareError.ShapeMismatchError (broadcastErrMsg a.shape b.shape)) ∧
    CompareOps.greaterEqual env a b =
      Except.error (CompareError.ShapeMismatchError (broadcastErrMsg a.shape b.shape)) := by
  refine ⟨?_, ?_, ?_, ?_, ?_, ?_⟩ <;>
    simp [notEqual_eq, less_eq, equal_eq, lessEqual_eq, greater_eq,
      greaterEqual_eq, hd, hc]

/-- C5 witness: `less` on incompatible shapes `[2]` and `[3]` fails with the
broadcast `ShapeMismatchError`. -/
theorem broadcast_incompatible_rejects_witness :
    CompareOps.less refBackend ⟨[2], DType.int32, [1, 2]⟩ ⟨[3], DType.int32, [1, 2, 3]⟩ =
      Except.error (CompareError.ShapeMismatchError (broadcastErrMsg [2] [3])) :=
  (broadcast_incompatible_rejects refBackend ⟨[2], DType.int32, [1, 2]⟩
    ⟨[3], DType.int32, [1, 2, 3]⟩ rfl (by decide)).2.1

/-- C6: the strict-shape validator accepts any shape paired with itself
under any context string, and rejects any two shapes that differ (in rank
or in any dimension) with the context-prefixed `ShapeMismatchError`. -/
theorem shape_validator_correct (s s1 s2 : Shape) (ctx ctx2 : String) :
    assertShapesMatch s s ctx = Except.ok () ∧
    (s1 ≠ s2 →
      assertShapesMatch s1 s2 ctx2 =
        Except.error (CompareError.ShapeMismatchError (ctx2 ++ shapesMsg s1 s2))) := by
  constructor
  · simp [assertShapesMatch]
  · intro h
    simp [assertShapesMatch, h]

/-- C6 witness: the validator on a concrete equal pair and a concrete
differing pair. -/
theorem shape_validator_correct_witness :
    assertShapesMatch [5, 3] [5, 3] "ctxA: " = Except.ok () ∧
    assertShapesMatch [5, 3] [5, 4] "ctxB: " =
      Except.error (CompareError.ShapeMismatchError ("ctxB: " ++ shapesMsg [5, 3] [5, 4])) :=
  ⟨(shape_validator_correct [5, 3] [5, 3] [5, 4] "ctxA: " "ctxB: ").1,
    (shape_validator_correct [5, 3] [5, 3] [5, 4] "ctxA: " "ctxB: ").2 (by decide)⟩

/-- C7: every entry point either returns exactly the freshly constructed
tensor produced by the engine's `runKernel` for its relation, or fails with
a structured `CompareError` — there is no third outcome and no partial
success; operands are immutable values in this embedding, so neither input
is modified whether the call succeeds or fails. -/
theorem ops_fresh_or_error (env : Backend) (a b : Tensor) :
    (CompareOps.notEqual env a b =
        Except.ok (Engine.runKernel env (fun backend => backend.notEqual a b) (a, b)) ∨
      ∃ e, CompareOps.notEqual env a b = Except.error e) ∧
    (CompareOps.less env a b =
        Except.ok (Engine.runKernel env (fun backend => backend.less a b) (a, b)) ∨
      ∃ e, CompareOps.less env a b = Except.error e) ∧
    (CompareOps.equal env a b =
        Except.ok (Engine.runKernel env (fun backend => backend.equal a b) (a, b)) ∨
      ∃ e, CompareOps.equal env a b = Except.error e) ∧
    (CompareOps.lessEqual env a b =
        Except.ok (Engine.runKernel env (fun backend => backend.lessEqual a b) (a, b)) ∨
      ∃ e, CompareOps.lessEqual env a b = Except.error e) ∧
    (CompareOps.greater env a b =
        Except.ok (Engine.runKernel env (fun backend => backend.greater a b) (a, b)) ∨
      ∃ e, CompareOps.greater env a b = Except.error e) ∧
    (CompareOps.greaterEqual env a b =
        Except.ok (Engine.runKernel env (fun backend => backend.greaterEqual a b) (a, b)) ∨
      ∃ e, CompareOps.greaterEqual env a b = Except.error e) ∧
    (CompareOps.notEqualStrict env a b =
        Except.ok (Engine.runKernel env (fun backend => backend.notEqual a b) (a, b)) ∨
      ∃ e, CompareOps.notEqualStrict env a b = Except.error e) ∧
    (CompareOps.lessStrict env a b =
        Except.ok (Engine.runKernel env (fun backend => backend.less a b) (a, b)) ∨
      ∃ e, CompareOps.lessStrict env a b = Except.error e) ∧
    (CompareOps.equalStrict env a b =
        Except.ok (Engine.runKernel env (fun backend => backend.equal a b) (a, b)) ∨
      ∃ e, CompareOps.equalStrict env a b = Except.error e) ∧
    (CompareOps.lessEqualStrict env a b =
        Except.ok (Engine.runKernel env (fun backend => backend.lessEqual a b) (a, b)) ∨
      ∃ e, CompareOps.lessEqualStrict env a b = Except.error e) ∧
    (CompareOps.greaterStrict env a b =
        Except.ok (Engine.runKernel env (fun backend => backend.greater a b) (a, b)) ∨
      ∃ e, CompareOps.greaterStrict env a b = Except.error e) ∧
    (CompareOps.greaterEqualStrict env a b =
        Except.ok (Engine.runKernel env (fun backend => backend.greaterEqual a b) (a, b)) ∨
      ∃ e, CompareOps.greaterEqualStrict env a b = Except.error e) := by
  refine ⟨?_, ?_, ?_, ?_, ?_, ?_, ?_, ?_, ?_, ?_, ?_, ?_⟩ <;>
  · simp only [notEqualStrict_eq, lessStrict_eq, equalStrict_eq, lessEqualStrict_eq,
      greaterStrict_eq, greaterEqualStrict_eq, notEqual_eq, less_eq, equal_eq,
      lessEqual_eq, greater_eq, greaterEqual_eq]
    by_cases hs : a.shape = b.shape <;> by_cases hd : a.dtype = b.dtype <;>
      by_cases hc : compatibleSpec a.shape b.shape <;>
      simp [hs, hd, hc, compatibleSpec_refl]

/-- C9: every strict entry point called with operands of identical shape but
differing element types fails with `TypeMismatchError`: the type check is
enforced on strict calls through delegation to the broadcasting variant. -/
theorem strict_type_check_enforced (env : Backend) (a b : Tensor)
    (hs : a.shape = b.shape) (hd : a.dtype ≠ b.dtype) :
    CompareOps.notEqualStrict env a b =
      Except.error (CompareError.TypeMismatchError a.dtype b.dtype) ∧
    CompareOps.lessStrict env a b =
      Except.error (CompareError.TypeMismatchError a.dtype b.dtype) ∧
    CompareOps.equalStrict env a b =
      Except.error (CompareError.TypeMismatchError a.dtype b.dtype) ∧
    CompareOps.lessEqualStrict env a b =
      Except.error (CompareError.TypeMismatchError a.dtype b.dtype) ∧
    CompareOps.greaterStrict env a b =
      Except.error (CompareError.TypeMismatchError a.dtype b.dtype) ∧
    CompareOps.greaterEqualStrict env a b =
      Except.error (CompareError.TypeMismatchError a.dtype b.dtype) := by
  refine ⟨?_, ?_, ?_, ?_, ?_, ?_⟩ <;>
    simp [notEqualStrict_eq, lessStrict_eq, equalStrict_eq, lessEqualStrict_eq,
      greaterStrict_eq, greaterEqualStrict_eq, notEqual_eq, less_eq, equal_eq,
      lessEqual_eq, greater_eq, greaterEqual_eq, hs, hd]

/-- C9 witness: `equalStrict` on same-shape operands of dtypes `int32` and
`bool` fails with `TypeMismatchError`. -/
theorem strict_type_check_enforced_witness :
    CompareOps.equalStrict refBackend ⟨[2], DType.int32, [1, 2]⟩ ⟨[2], DType.bool, [1, 0]⟩ =
      Except.error (CompareError.TypeMismatchError DType.int32 DType.bool) :=
  (strict_type_check_enforced refBackend ⟨[2], DType.int32, [1, 2]⟩
    ⟨[2], DType.bool, [1, 0]⟩ rfl (by decide)).2.2.1

/-- C10: with a fixed backend every entry point is deterministic: operands
that are equal in shape, element type and data produce equal results (equal
result tensors on success, and the same error on failure). -/
theorem ops_deterministic (env : Backend) (a a2 b b2 : Tensor)
    (ha1 : a.shape = a2.shape) (ha2 : a.dtype = a2.dtype) (ha3 : a.data = a2.data)
    (hb1 : b.shape = b2.shape) (hb2 : b.dtype = b2.dtype) (hb3 : b.data = b2.data) :
    CompareOps.notEqual env a b = CompareOps.notEqual env a2 b2 ∧
    CompareOps.less env a b = CompareOps.less env a2 b2 ∧
    CompareOps.equal env a b = CompareOps.equal env a2 b2 ∧
    CompareOps.lessEqual env a b = CompareOps.lessEqual env a2 b2 ∧
    CompareOps.greater env a b = CompareOps.greater env a2 b2 ∧
    CompareOps.greaterEqual env a b = CompareOps.greaterEqual env a2 b2 ∧
    CompareOps.notEqualStrict env a b = CompareOps.notEqualStrict env a2 b2 ∧
    CompareOps.lessStrict env a b = CompareOps.lessStrict env a2 b2 ∧
    CompareOps.equalStrict env a b = CompareOps.equalStrict env a2 b2 ∧
    CompareOps.lessEqualStrict env a b = CompareOps.lessEqualStrict env a2 b2 ∧
    CompareOps.greaterStrict env a b = CompareOps.greaterStrict env a2 b2 ∧
    CompareOps.greaterEqualStrict env a b = CompareOps.greaterEqualStrict env a2 b2 := by
  have ha : a = a2 := by
    cases a; cases a2; simp_all
  have hb : b = b2 := by
    cases b; cases b2; simp_all
  subst ha
  subst hb
  exact ⟨rfl, rfl, rfl, rfl, rfl, rfl, rfl, rfl, rfl, rfl, rfl, rfl⟩

/-- C10 witness: determinism instantiated at concrete equal operand
values. -/
theorem ops_deterministic_witness :
    CompareOps.less refBackend ⟨[2], DType.int32, [1, 2]⟩ ⟨[2], DType.int32, [2, 2]⟩ =
      CompareOps.less refBackend ⟨[2], DType.int32, [1, 2]⟩ ⟨[2], DType.int32, [2, 2]⟩ :=
  (ops_deterministic refBackend ⟨[2], DType.int32, [1, 2]⟩ ⟨[2], DType.int32, [1, 2]⟩
    ⟨[2], DType.int32, [2, 2]⟩ ⟨[2], DType.int32, [2, 2]⟩
    rfl rfl rfl rfl rfl rfl).2.1

/-- C8: `less` on operands of shapes `(2,1)` and `(1,)` with values
`[[1],[2]]` and `[2]` succeeds: the shapes resolve to broadcast shape
`(2,1)` and the result is the boolean tensor `[[true],[false]]` (data
`[1, 0]`). -/
theorem less_broadcast_example :
    CompareOps.less refBackend ⟨[2, 1], DType.int32, [1, 2]⟩ ⟨[1], DType.int32, [2]⟩ =
      Except.ok ⟨[2, 1], DType.bool, [1, 0]⟩ ∧
    assertAndGetBroadcastShape [2, 1] [1] = Except.ok [2, 1] :=
  ⟨rfl, rfl⟩
